import Mathlib

/-!
Shallow embedding of the `trx_service` transaction engine
(`src/trx_engine/{account,transaction,ledger,errors}.rs`).

Amounts (`rust_decimal::Decimal`, exact decimal arithmetic) are modelled as
`ℚ`; client ids (`u16`) and transaction ids (`u32`) as `Nat` (the engine only
compares them for equality, never does arithmetic on them).  The two
`HashMap`s of the `Ledger` are modelled as functions into `Option`.  Rust
methods taking `&mut self` and returning `anyhow::Result<()>` become pure
functions returning `Except EngineError Unit × <new state>`.
-/

namespace TrxService

/-- Error taxonomy `EngineError` from `errors.rs`. -/
inductive EngineError where
  | insufficientFunds
  | negativeAmount
  | trxAlreadyProcessed
  | trxInvalidAmount
  | trxNotFound
  | trxNotInDisputableState
  | trxNotInDispute
  | trxNotDisputable
  | trxClientIdInconsistency
  | accountLocked
deriving DecidableEq

/-- Enum `Type` from `transaction.rs` (the five input record kinds). -/
inductive TrxType where
  | deposit
  | withdrawal
  | dispute
  | resolve
  | chargeback
deriving DecidableEq

/-- Enum `State` from `transaction.rs` (lifecycle state of a stored record). -/
inductive TrxState where
  | ok
  | disputed
  | chargeback
deriving DecidableEq

/-- Struct `Account` from `account.rs`. -/
structure Account where
  client : Nat
  available : ℚ
  held : ℚ
  total : ℚ
  locked : Bool
deriving DecidableEq

/-- Struct `Input` from `transaction.rs`: one decoded input record. -/
structure Input where
  transaction_type : TrxType
  client : Nat
  tx : Nat
  amount : Option ℚ
deriving DecidableEq

/-- Struct `Transaction` from `transaction.rs`: a stored transaction record. -/
structure Transaction where
  transaction_type : TrxType
  client : Nat
  amount : Option ℚ
  state : TrxState
deriving DecidableEq

/-- Function `Account::new`. -/
def Account.new (id : Nat) : Account :=
  { client := id, available := 0, held := 0, total := 0, locked := false }

/-- Helper `is_amount_negative` from `account.rs` (`Decimal::is_sign_negative`). -/
def is_amount_negative (amount : ℚ) : Except EngineError Unit :=
  if amount < 0 then .error .negativeAmount else .ok ()

/-- Function `Account::is_account_locked`. -/
def Account.is_account_locked (a : Account) : Except EngineError Unit :=
  if a.locked then .error .accountLocked else .ok ()

/-- Function `Account::deposit`. -/
def Account.deposit (a : Account) (amount : ℚ) :
    Except EngineError Unit × Account :=
  match is_amount_negative amount with
  | .error e => (.error e, a)
  | .ok _ =>
    match a.is_account_locked with
    | .error e => (.error e, a)
    | .ok _ =>
      (.ok (), { a with available := a.available + amount,
                        total := a.total + amount })

/-- Function `Account::withdrawal`. -/
def Account.withdrawal (a : Account) (amount : ℚ) :
    Except EngineError Unit × Account :=
  match is_amount_negative amount with
  | .error e => (.error e, a)
  | .ok _ =>
    match a.is_account_locked with
    | .error e => (.error e, a)
    | .ok _ =>
      if amount > a.available then (.error .insufficientFunds, a)
      else
        (.ok (), { a with available := a.available - amount,
                          total := a.total - amount })

/-- Function `Account::dispute`. -/
def Account.dispute (a : Account) (amount : ℚ) :
    Except EngineError Unit × Account :=
  match is_amount_negative amount with
  | .error e => (.error e, a)
  | .ok _ =>
    match a.is_account_locked with
    | .error e => (.error e, a)
    | .ok _ =>
      (.ok (), { a with available := a.available - amount,
                        held := a.held + amount })

/-- Function `Account::resolve`. -/
def Account.resolve (a : Account) (amount : ℚ) :
    Except EngineError Unit × Account :=
  match is_amount_negative amount with
  | .error e => (.error e, a)
  | .ok _ =>
    match a.is_account_locked with
    | .error e => (.error e, a)
    | .ok _ =>
      (.ok (), { a with available := a.available + amount,
                        held := a.held - amount })

/-- Function `Account::chargeback`. -/
def Account.chargeback (a : Account) (amount : ℚ) :
    Except EngineError Unit × Account :=
  match is_amount_negative amount with
  | .error e => (.error e, a)
  | .ok _ =>
    match a.is_account_locked with
    | .error e => (.error e, a)
    | .ok _ =>
      (.ok (), { a with total := a.total - amount,
                        held := a.held - amount,
                        locked := true })

/-- Function `Transaction::new`. -/
def Transaction.new (input : Input) : Transaction :=
  { transaction_type := input.transaction_type, client := input.client,
    amount := input.amount, state := .ok }

/-- Function `Transaction::open_dispute`. -/
def Transaction.open_dispute (t : Transaction) : Transaction :=
  { t with state := .disputed }

/-- Function `Transaction::resolve_dispute`. -/
def Transaction.resolve_dispute (t : Transaction) : Transaction :=
  { t with state := .ok }

/-- Function `Transaction::chargeback_dispute`. -/
def Transaction.chargeback_dispute (t : Transaction) : Transaction :=
  { t with state := .chargeback }

/-- Struct `Ledger` from `ledger.rs`: the two owned maps. -/
structure Ledger where
  accounts : Nat → Option Account
  trx : Nat → Option Transaction

/-- Function `Ledger::new`. -/
def Ledger.new : Ledger := ⟨fun _ => none, fun _ => none⟩

/-- Map update on the accounts map (the effect of `entry(..).or_insert(..)`
followed by in-place mutation through the entry reference). -/
def Ledger.withAccount (l : Ledger) (c : Nat) (a : Account) : Ledger :=
  { l with accounts := fun k => if k = c then some a else l.accounts k }

/-- Map update on the transaction map (`self.trx.insert` / in-place
mutation through `get_mut`). -/
def Ledger.withTrx (l : Ledger) (t : Nat) (r : Transaction) : Ledger :=
  { l with trx := fun k => if k = t then some r else l.trx k }

/-- Function `Ledger::process_trx`.  The Rust method mutates `self` and returns
`anyhow::Result<()>`; here it returns the result together with the final
ledger state.  Note that the `entry(input.client).or_insert(Account::new…)`
happens before any validation, so the account for `input.client` exists in
the final state even on the error paths. -/
def Ledger.process_trx (l : Ledger) (input : Input) :
    Except EngineError Unit × Ledger :=
  -- fetch account or create new record
  let account := (l.accounts input.client).getD (Account.new input.client)
  match input.transaction_type with
  | .deposit =>
    -- if this transaction is already present in the ledger there is an inconsistent behaviour.
    if (l.trx input.tx).isSome then
      (.error .trxAlreadyProcessed, l.withAccount input.client account)
    else
      -- validate that the amount has a workable value.
      match input.amount with
      | none => (.error .trxInvalidAmount, l.withAccount input.client account)
      | some amount =>
        match account.deposit amount with
        | (.error e, a) => (.error e, l.withAccount input.client a)
        | (.ok _, a) =>
          (.ok (), (l.withAccount input.client a).withTrx input.tx
            (Transaction.new input))
  | .withdrawal =>
    -- if this transaction is already present in the ledger there is an inconsistent behaviour.
    if (l.trx input.tx).isSome then
      (.error .trxAlreadyProcessed, l.withAccount input.client account)
    else
      -- validate that the amount has a workable value.
      match input.amount with
      | none => (.error .trxInvalidAmount, l.withAccount input.client account)
      | some amount =>
        match account.withdrawal amount with
        | (.error e, a) => (.error e, l.withAccount input.client a)
        | (.ok _, a) =>
          (.ok (), (l.withAccount input.client a).withTrx input.tx
            (Transaction.new input))
  | .dispute =>
    -- find the transaction to be disputed.
    match l.trx input.tx with
    | none => (.error .trxNotFound, l.withAccount input.client account)
    | some disputed_trx =>
      -- validate that the retrieved transaction belongs to the same client.
      if input.client ≠ disputed_trx.client then
        (.error .trxClientIdInconsistency, l.withAccount input.client account)
      else
        -- validate that the transaction to be disputed is a deposit.
        match disputed_trx.transaction_type with
        | .withdrawal | .resolve | .dispute | .chargeback =>
          (.error .trxNotDisputable, l.withAccount input.client account)
        | .deposit =>
          -- validate that it is not already under dispute nor charged back.
          if disputed_trx.state ≠ .ok then
            (.error .trxNotInDisputableState,
              l.withAccount input.client account)
          else
            -- validate that the amount of the disputed trx has a workable value.
            match disputed_trx.amount with
            | none =>
              (.error .trxInvalidAmount, l.withAccount input.client account)
            | some amount =>
              match account.dispute amount with
              | (.error e, a) => (.error e, l.withAccount input.client a)
              | (.ok _, a) =>
                -- mark transaction as being disputed.
                (.ok (), (l.withAccount input.client a).withTrx input.tx
                  disputed_trx.open_dispute)
  | .resolve =>
    -- find the transaction to be resolved.
    match l.trx input.tx with
    | none => (.error .trxNotFound, l.withAccount input.client account)
    | some resolved_trx =>
      -- validate that the transaction to be resolved is under dispute.
      if resolved_trx.state ≠ .disputed then
        (.error .trxNotInDispute, l.withAccount input.client account)
      else
        -- validate that the retrieved transaction belongs to the same client.
        if input.client ≠ resolved_trx.client then
          (.error .trxClientIdInconsistency,
            l.withAccount input.client account)
        else
          -- validate that the amount of the resolved trx has a workable value.
          match resolved_trx.amount with
          | none =>
            (.error .trxInvalidAmount, l.withAccount input.client account)
          | some amount =>
            match account.resolve amount with
            | (.error e, a) => (.error e, l.withAccount input.client a)
            | (.ok _, a) =>
              -- mark disputed transaction as resolved.
              (.ok (), (l.withAccount input.client a).withTrx input.tx
                resolved_trx.resolve_dispute)
  | .chargeback =>
    -- find the transaction to be chargeback.
    match l.trx input.tx with
    | none => (.error .trxNotFound, l.withAccount input.client account)
    | some chargeback_trx =>
      -- validate that the retrieved transaction belongs to the same client.
      if input.client ≠ chargeback_trx.client then
        (.error .trxClientIdInconsistency, l.withAccount input.client account)
      else
        -- validate that the amount of the chargeback trx has a workable value.
        match chargeback_trx.amount with
        | none =>
          (.error .trxInvalidAmount, l.withAccount input.client account)
        | some amount =>
          -- perform the necessary calculations for chargeback and lock account.
          match account.chargeback amount with
          | (.error e, a) => (.error e, l.withAccount input.client a)
          | (.ok _, a) =>
            -- mark transaction as chargeback.
            (.ok (), (l.withAccount input.client a).withTrx input.tx
              chargeback_trx.chargeback_dispute)

/-- The driver loop (`processor.rs`): feed each record to the ledger in input
order, discarding per-record errors. -/
def processAll (l : Ledger) (inputs : List Input) : Ledger :=
  inputs.foldl (fun acc i => (acc.process_trx i).2) l

/-! ### Basic shape lemmas about the account operations -/

/-- On the error path, `Account::deposit` leaves the account unchanged. -/
theorem Account.deposit_err {a b : Account} {amt : ℚ} {e : EngineError}
    (h : a.deposit amt = (.error e, b)) : b = a := by
  unfold Account.deposit is_amount_negative Account.is_account_locked at h
  repeat' split at h
  all_goals simp_all

/-- On the success path, `Account::deposit` adds the amount to `available`
and `total`. -/
theorem Account.deposit_ok {a b : Account} {amt : ℚ} {u : Unit}
    (h : a.deposit amt = (.ok u, b)) :
    b = { a with available := a.available + amt, total := a.total + amt } := by
  unfold Account.deposit is_amount_negative Account.is_account_locked at h
  repeat' split at h
  all_goals simp_all

/-- On the error path, `Account::withdrawal` leaves the account unchanged. -/
theorem Account.withdrawal_err {a b : Account} {amt : ℚ} {e : EngineError}
    (h : a.withdrawal amt = (.error e, b)) : b = a := by
  unfold Account.withdrawal is_amount_negative Account.is_account_locked at h
  repeat' split at h
  all_goals simp_all

/-- On the success path, `Account::withdrawal` subtracts the amount from
`available` and `total`. -/
theorem Account.withdrawal_ok {a b : Account} {amt : ℚ} {u : Unit}
    (h : a.withdrawal amt = (.ok u, b)) :
    b = { a with available := a.available - amt, total := a.total - amt } := by
  unfold Account.withdrawal is_amount_negative Account.is_account_locked at h
  repeat' split at h
  all_goals simp_all

/-- On the error path, `Account::dispute` leaves the account unchanged. -/
theorem Account.dispute_err {a b : Account} {amt : ℚ} {e : EngineError}
    (h : a.dispute amt = (.error e, b)) : b = a := by
  unfold Account.dispute is_amount_negative Account.is_account_locked at h
  repeat' split at h
  all_goals simp_all

/-- On the success path, `Account::dispute` moves the amount from `available`
to `held`. -/
theorem Account.dispute_ok {a b : Account} {amt : ℚ} {u : Unit}
    (h : a.dispute amt = (.ok u, b)) :
    b = { a with available := a.available - amt, held := a.held + amt } := by
  unfold Account.dispute is_amount_negative Account.is_account_locked at h
  repeat' split at h
  all_goals simp_all

/-- On the error path, `Account::resolve` leaves the account unchanged. -/
theorem Account.resolve_err {a b : Account} {amt : ℚ} {e : EngineError}
    (h : a.resolve amt = (.error e, b)) : b = a := by
  unfold Account.resolve is_amount_negative Account.is_account_locked at h
  repeat' split at h
  all_goals simp_all

/-- On the success path, `Account::resolve` moves the amount from `held` back
to `available`. -/
theorem Account.resolve_ok {a b : Account} {amt : ℚ} {u : Unit}
    (h : a.resolve amt = (.ok u, b)) :
    b = { a with available := a.available + amt, held := a.held - amt } := by
  unfold Account.resolve is_amount_negative Account.is_account_locked at h
  repeat' split at h
  all_goals simp_all

/-- On the error path, `Account::chargeback` leaves the account unchanged. -/
theorem Account.chargeback_err {a b : Account} {amt : ℚ} {e : EngineError}
    (h : a.chargeback amt = (.error e, b)) : b = a := by
  unfold Account.chargeback is_amount_negative Account.is_account_locked at h
  repeat' split at h
  all_goals simp_all

/-- On the success path, `Account::chargeback` subtracts the amount from
`total` and `held` and locks the account. -/
theorem Account.chargeback_ok {a b : Account} {amt : ℚ} {u : Unit}
    (h : a.chargeback amt = (.ok u, b)) :
    b = { a with total := a.total - amt, held := a.held - amt,
                 locked := true } := by
  unfold Account.chargeback is_amount_negative Account.is_account_locked at h
  repeat' split at h
  all_goals simp_all

/-- Each account operation fails (without reaching the balance updates) on a
locked account. -/
theorem Account.deposit_locked {a : Account} {amt : ℚ}
    (h : a.locked = true) : (a.deposit amt).1.isOk = false := by
  unfold Account.deposit is_amount_negative Account.is_account_locked
  repeat' split
  all_goals simp_all [Except.isOk, Except.toBool]

/-- Withdrawal on a locked account fails. -/
theorem Account.withdrawal_locked {a : Account} {amt : ℚ}
    (h : a.locked = true) : (a.withdrawal amt).1.isOk = false := by
  unfold Account.withdrawal is_amount_negative Account.is_account_locked
  repeat' split
  all_goals simp_all [Except.isOk, Except.toBool]

/-- Dispute on a locked account fails. -/
theorem Account.dispute_locked {a : Account} {amt : ℚ}
    (h : a.locked = true) : (a.dispute amt).1.isOk = false := by
  unfold Account.dispute is_amount_negative Account.is_account_locked
  repeat' split
  all_goals simp_all [Except.isOk, Except.toBool]

/-- Resolve on a locked account fails. -/
theorem Account.resolve_locked {a : Account} {amt : ℚ}
    (h : a.locked = true) : (a.resolve amt).1.isOk = false := by
  unfold Account.resolve is_amount_negative Account.is_account_locked
  repeat' split
  all_goals simp_all [Except.isOk, Except.toBool]

/-- Chargeback on a locked account fails. -/
theorem Account.chargeback_locked {a : Account} {amt : ℚ}
    (h : a.locked = true) : (a.chargeback amt).1.isOk = false := by
  unfold Account.chargeback is_amount_negative Account.is_account_locked
  repeat' split
  all_goals simp_all [Except.isOk, Except.toBool]

/-! ### Ledger map lemmas -/

/-- Writing back an account that is already stored at its key is a no-op. -/
theorem Ledger.withAccount_eq_self {l : Ledger} {c : Nat} {a : Account}
    (h : l.accounts c = some a) : l.withAccount c a = l := by
  cases l with
  | mk accs trxs =>
    simp only [Ledger.withAccount, Ledger.mk.injEq, and_true]
    funext k
    by_cases hk : k = c
    · subst hk; simp_all
    · simp [hk]

/-! ### The balance invariant -/

/-- The spec invariant on a single account: `total == available + held`. -/
def Account.balanced (a : Account) : Prop :=
  a.total = a.available + a.held

/-- Every account stored in the ledger satisfies the balance invariant. -/
def Ledger.balanced (l : Ledger) : Prop :=
  ∀ c a, l.accounts c = some a → a.balanced

/-- Freshly created accounts are balanced. -/
theorem Account.new_balanced (c : Nat) : (Account.new c).balanced := by
  simp [Account.new, Account.balanced]

/-- The empty ledger is balanced. -/
theorem Ledger.balanced_new : Ledger.new.balanced := by
  intro c a h
  simp [Ledger.new] at h

/-- Inserting a balanced account into a balanced ledger keeps it balanced. -/
theorem Ledger.balanced_withAccount {l : Ledger} {c : Nat} {a : Account}
    (hb : l.balanced) (ha : a.balanced) : (l.withAccount c a).balanced := by
  intro k b hk
  simp only [Ledger.withAccount] at hk
  split at hk
  · cases hk; exact ha
  · exact hb k b hk

/-- Updating the transaction map does not touch the accounts. -/
theorem Ledger.balanced_withTrx {l : Ledger} {t : Nat} {r : Transaction}
    (hb : l.balanced) : (l.withTrx t r).balanced := by
  intro k b hk
  exact hb k b hk

/-- The account fetched (or lazily created) at the start of `process_trx`
is balanced whenever the ledger is. -/
theorem Ledger.balanced_getD {l : Ledger} (hb : l.balanced) (c : Nat) :
    ((l.accounts c).getD (Account.new c)).balanced := by
  cases hx : l.accounts c with
  | none => simpa using Account.new_balanced c
  | some a => simpa using hb c a hx

/-- One `process_trx` step (successful or failed) preserves the balance
invariant on every account of the ledger. -/
theorem Ledger.process_trx_balanced {l : Ledger} (i : Input)
    (hb : l.balanced) : ((l.process_trx i).2).balanced := by
  have hacc := Ledger.balanced_getD hb i.client
  rcases hq : l.process_trx i with ⟨res, l2⟩
  cases i with
  | mk ty c t amt =>
    unfold Ledger.process_trx at hq
    cases ty
    all_goals dsimp only at hq hacc ⊢
    all_goals repeat' split at hq
    all_goals simp only [Prod.mk.injEq] at hq
    all_goals obtain ⟨h1, h2⟩ := hq
    all_goals subst h2
    all_goals (first
      | exact Ledger.balanced_withAccount hb hacc
      | (rename_i e2 a2 heq
         first
           | rw [Account.deposit_err heq]
           | rw [Account.withdrawal_err heq]
           | rw [Account.dispute_err heq]
           | rw [Account.resolve_err heq]
           | rw [Account.chargeback_err heq]
         exact Ledger.balanced_withAccount hb hacc)
      | (rename_i u2 a2 heq
         refine Ledger.balanced_withTrx (Ledger.balanced_withAccount hb ?_)
         unfold Account.balanced at hacc ⊢
         first
           | (rw [Account.deposit_ok heq]; dsimp only; linarith)
           | (rw [Account.withdrawal_ok heq]; dsimp only; linarith)
           | (rw [Account.dispute_ok heq]; dsimp only; linarith)
           | (rw [Account.resolve_ok heq]; dsimp only; linarith)
           | (rw [Account.chargeback_ok heq]; dsimp only; linarith)))

/-- Processing any list of inputs from a balanced ledger yields a balanced
ledger. -/
theorem processAll_balanced (inputs : List Input) {l : Ledger}
    (hb : l.balanced) : (processAll l inputs).balanced := by
  induction inputs generalizing l with
  | nil => exact hb
  | cons i rest ih => exact ih (Ledger.process_trx_balanced i hb)

/-! ### State of the ledger on the error paths -/

/-- When `process_trx` returns an error, the final ledger is the input ledger
with the fetched (or lazily created) account written back unchanged at the
key of the input record: the transaction map is untouched, and the only
possible change to the accounts map is the lazy creation performed by
`entry(..).or_insert(..)` before any validation. -/
theorem Ledger.process_trx_err {l : Ledger} {i : Input} {e : EngineError}
    {l2 : Ledger} (h : l.process_trx i = (.error e, l2)) :
    l2 = l.withAccount i.client
      ((l.accounts i.client).getD (Account.new i.client)) := by
  cases i with
  | mk ty c t amt =>
    unfold Ledger.process_trx at h
    cases ty
    all_goals dsimp only at h ⊢
    all_goals repeat' split at h
    all_goals simp only [Prod.mk.injEq] at h
    all_goals (first
      | exact h.2.symm
      | (rename_i e2 a2 heq
         rw [← h.2]
         first
           | rw [Account.deposit_err heq]
           | rw [Account.withdrawal_err heq]
           | rw [Account.dispute_err heq]
           | rw [Account.resolve_err heq]
           | rw [Account.chargeback_err heq])
      | simp at h)

/-- When the account referenced by the input record is locked, `process_trx`
always returns some error (though not necessarily `AccountLocked`: earlier
validations may fire first). -/
theorem Ledger.process_trx_locked {l : Ledger} {i : Input} {a : Account}
    (ha : l.accounts i.client = some a) (hl : a.locked = true) :
    ∃ e, (l.process_trx i).1 = Except.error e := by
  rcases hq : l.process_trx i with ⟨res, l2⟩
  show ∃ e, res = Except.error e
  cases i with
  | mk ty c t amt =>
    dsimp only at ha
    unfold Ledger.process_trx at hq
    rw [ha] at hq
    simp only [Option.getD] at hq
    cases ty
    all_goals dsimp only at hq
    all_goals repeat' split at hq
    all_goals simp only [Prod.mk.injEq] at hq
    all_goals (first
      | exact ⟨_, hq.1.symm⟩
      | (rename_i u2 a2 heq
         have hcon := congrArg (fun p => (Prod.fst p).isOk) heq
         dsimp only at hcon
         first
           | rw [Account.deposit_locked hl] at hcon
           | rw [Account.withdrawal_locked hl] at hcon
           | rw [Account.dispute_locked hl] at hcon
           | rw [Account.resolve_locked hl] at hcon
           | rw [Account.chargeback_locked hl] at hcon
         simp [Except.isOk, Except.toBool] at hcon))

/-! ### Claim theorems -/

/-- C2: for every sequence of input records processed from a fresh Ledger,
every Account in the Ledger satisfies `total == available + held` after every
`process_trx` call, whether it succeeded or failed.  (Every intermediate
state is `processAll Ledger.new` of some prefix of the input stream.) -/
theorem C2_balance_invariant (inputs : List Input) (c : Nat) (a : Account)
    (h : (processAll Ledger.new inputs).accounts c = some a) :
    a.total = a.available + a.held :=
  processAll_balanced inputs Ledger.balanced_new c a h

/-- Witness for C2 at the one-record stream `deposit(client 0, tx 1, 1500)`. -/
theorem C2_witness :
    ((processAll Ledger.new [⟨.deposit, 0, 1, some 1500⟩]).accounts 0 =
      some { client := 0, available := 1500, held := 0, total := 1500,
             locked := false }) ∧
    ({ client := 0, available := 1500, held := 0, total := 1500,
       locked := false } : Account).total =
      ({ client := 0, available := 1500, held := 0, total := 1500,
         locked := false } : Account).available +
      ({ client := 0, available := 1500, held := 0, total := 1500,
         locked := false } : Account).held :=
  ⟨by norm_num [processAll, Ledger.process_trx, Ledger.new, Ledger.withAccount,
      Ledger.withTrx, Account.new, Account.deposit, Account.is_account_locked,
      is_amount_negative, Transaction.new],
   C2_balance_invariant [⟨.deposit, 0, 1, some 1500⟩] 0 _
    (by norm_num [processAll, Ledger.process_trx, Ledger.new,
      Ledger.withAccount, Ledger.withTrx, Account.new, Account.deposit,
      Account.is_account_locked, is_amount_negative, Transaction.new])⟩

/-- C7: from a fresh Ledger, deposit(0,1,1500); dispute(0,1); resolve(0,1);
chargeback(0,1) leaves client 0 with available=1500, held=-1500, total=0,
locked=true. -/
theorem C7_scenario_d :
    (processAll Ledger.new [⟨.deposit, 0, 1, some 1500⟩, ⟨.dispute, 0, 1, none⟩,
        ⟨.resolve, 0, 1, none⟩, ⟨.chargeback, 0, 1, none⟩]).accounts 0 =
      some { client := 0, available := 1500, held := -1500, total := 0,
             locked := true } := by
  norm_num [processAll, Ledger.process_trx, Ledger.new, Ledger.withAccount,
    Ledger.withTrx, Account.new, Account.deposit, Account.dispute,
    Account.resolve, Account.chargeback, Account.is_account_locked,
    is_amount_negative, Transaction.new, Transaction.open_dispute,
    Transaction.resolve_dispute, Transaction.chargeback_dispute]

/-- C8: on an unlocked account, a withdrawal of a non-negative amount
strictly greater than the available balance fails with `InsufficientFunds`
and leaves all four fields unchanged. -/
theorem C8_insufficient_funds (a : Account) (amt : ℚ) (hl : a.locked = false)
    (hnn : 0 ≤ amt) (hgt : a.available < amt) :
    a.withdrawal amt = (Except.error EngineError.insufficientFunds, a) := by
  simp [Account.withdrawal, is_amount_negative, Account.is_account_locked,
    hl, not_lt.mpr hnn, hgt]

/-- Witness for C8: withdrawing 500 from a fresh zero-balance account. -/
theorem C8_witness :
    (({ client := 0, available := 0, held := 0, total := 0,
        locked := false } : Account).locked = false ∧
      (0 : ℚ) ≤ 500 ∧
      ({ client := 0, available := 0, held := 0, total := 0,
         locked := false } : Account).available < 500) ∧
    ({ client := 0, available := 0, held := 0, total := 0,
       locked := false } : Account).withdrawal 500 =
      (Except.error EngineError.insufficientFunds,
       { client := 0, available := 0, held := 0, total := 0,
         locked := false }) :=
  ⟨⟨rfl, by norm_num, by norm_num⟩,
   C8_insufficient_funds _ 500 rfl (by norm_num) (by norm_num)⟩

/-- C10: in every account operation the negative-amount check runs before
the locked check, so a negative amount on a locked account yields
`NegativeAmount`, not `AccountLocked`, and the account is unchanged. -/
theorem C10_negative_before_locked (a : Account) (amt : ℚ)
    (hl : a.locked = true) (hneg : amt < 0) :
    a.deposit amt = (Except.error EngineError.negativeAmount, a) ∧
    a.withdrawal amt = (Except.error EngineError.negativeAmount, a) ∧
    a.dispute amt = (Except.error EngineError.negativeAmount, a) ∧
    a.resolve amt = (Except.error EngineError.negativeAmount, a) ∧
    a.chargeback amt = (Except.error EngineError.negativeAmount, a) := by
  refine ⟨?_, ?_, ?_, ?_, ?_⟩ <;>
    simp [Account.deposit, Account.withdrawal, Account.dispute,
      Account.resolve, Account.chargeback, is_amount_negative, hneg]

/-- Witness for C10: amount -5 on a locked account. -/
theorem C10_witness :
    (({ client := 0, available := 0, held := 0, total := 0,
        locked := true } : Account).locked = true ∧ (-5 : ℚ) < 0) ∧
    ({ client := 0, available := 0, held := 0, total := 0,
       locked := true } : Account).deposit (-5) =
      (Except.error EngineError.negativeAmount,
       { client := 0, available := 0, held := 0, total := 0,
         locked := true }) :=
  ⟨⟨rfl, by norm_num⟩,
   (C10_negative_before_locked _ (-5) rfl (by norm_num)).1⟩

/-- C1 counterexample: a dispute referencing an unknown transaction id on a
fresh ledger is rejected with `TrxNotFound`, yet the accounts map is NOT as
it was before the call: an Account for the input client id has been created
by the `entry(..).or_insert(..)` that runs before any validation. -/
theorem C1_counterexample :
    (Ledger.new.process_trx ⟨.dispute, 0, 1, none⟩).1 =
      Except.error EngineError.trxNotFound ∧
    Ledger.new.accounts 0 = none ∧
    ((Ledger.new.process_trx ⟨.dispute, 0, 1, none⟩).2).accounts 0 =
      some (Account.new 0) := by
  refine ⟨?_, rfl, ?_⟩ <;>
    norm_num [Ledger.process_trx, Ledger.new, Ledger.withAccount]

/-- C1 (amended): if `process_trx` returns an error, the transaction-record
map is unchanged and every account that existed before the call is exactly
as it was; the only possible change is the lazy creation of a fresh
zero-balance unlocked Account for the input client id when none existed. -/
theorem C1_error_no_partial_mutation (l : Ledger) (i : Input)
    (e : EngineError) (h : (l.process_trx i).1 = Except.error e) :
    ((l.process_trx i).2).trx = l.trx ∧
    (∀ c, c ≠ i.client → ((l.process_trx i).2).accounts c = l.accounts c) ∧
    (∀ a, l.accounts i.client = some a →
      ((l.process_trx i).2).accounts i.client = some a) ∧
    (l.accounts i.client = none →
      ((l.process_trx i).2).accounts i.client = some (Account.new i.client)) := by
  rcases hp : l.process_trx i with ⟨rs, l2⟩
  rw [hp] at h
  replace h : rs = Except.error e := h
  subst h
  have h2 := Ledger.process_trx_err hp
  subst h2
  refine ⟨rfl, ?_, ?_, ?_⟩
  · intro c hc
    simp [Ledger.withAccount, hc]
  · intro a ha
    simp [Ledger.withAccount, ha]
  · intro hnone
    simp [Ledger.withAccount, hnone]

/-- Witness for C1: a deposit with no amount fails with `TrxInvalidAmount`;
the trx map is unchanged and the pre-existing account of another client is
untouched. -/
theorem C1_witness :
    ((Ledger.new.process_trx ⟨.deposit, 0, 1, none⟩).1 =
      Except.error EngineError.trxInvalidAmount) ∧
    ((Ledger.new.process_trx ⟨.deposit, 0, 1, none⟩).2).trx = Ledger.new.trx :=
  ⟨by norm_num [Ledger.process_trx, Ledger.new, Ledger.withAccount],
   (C1_error_no_partial_mutation Ledger.new ⟨.deposit, 0, 1, none⟩
      EngineError.trxInvalidAmount
      (by norm_num [Ledger.process_trx, Ledger.new, Ledger.withAccount])).1⟩

/-- C6: when the transaction id of a Deposit or Withdrawal input is already
present in the transaction-record map, `process_trx` returns
`TrxAlreadyProcessed`, the transaction map is unchanged, and every account
balance from the earlier processing is unchanged. -/
theorem C6_idempotency_guard (l : Ledger) (i : Input) (r : Transaction)
    (hty : i.transaction_type = .deposit ∨ i.transaction_type = .withdrawal)
    (htrx : l.trx i.tx = some r) :
    (l.process_trx i).1 = Except.error EngineError.trxAlreadyProcessed ∧
    ((l.process_trx i).2).trx = l.trx ∧
    (∀ c a, l.accounts c = some a →
      ((l.process_trx i).2).accounts c = some a) := by
  cases i with
  | mk ty c t amt =>
    dsimp only at hty htrx ⊢
    have hsome : (l.trx t).isSome = true := by rw [htrx]; rfl
    rcases hty with h | h <;> subst h <;>
      simp only [Ledger.process_trx, hsome, if_true] <;>
      refine ⟨by trivial, by trivial, ?_⟩ <;>
      intro k a ha <;>
      by_cases hk : k = c <;>
      simp [Ledger.withAccount, hk, ← ha] <;>
      subst hk <;> simp [ha]

/-- Witness for C6: replaying the same deposit input twice. -/
theorem C6_witness :
    ((processAll Ledger.new [⟨.deposit, 0, 1, some 1500⟩]).trx 1 =
      some { transaction_type := .deposit, client := 0, amount := some 1500,
             state := .ok }) ∧
    ((processAll Ledger.new
        [⟨.deposit, 0, 1, some 1500⟩]).process_trx
      ⟨.deposit, 0, 1, some 1500⟩).1 =
        Except.error EngineError.trxAlreadyProcessed :=
  ⟨by norm_num [processAll, Ledger.process_trx, Ledger.new, Ledger.withAccount,
      Ledger.withTrx, Account.new, Account.deposit, Account.is_account_locked,
      is_amount_negative, Transaction.new],
   (C6_idempotency_guard _ ⟨.deposit, 0, 1, some 1500⟩
      ⟨.deposit, 0, some 1500, .ok⟩ (Or.inl rfl)
      (by norm_num [processAll, Ledger.process_trx, Ledger.new,
        Ledger.withAccount, Ledger.withTrx, Account.new, Account.deposit,
        Account.is_account_locked, is_amount_negative,
        Transaction.new])).1⟩

/-- C3 counterexample: after deposit(0,1,1500); dispute(0,1);
chargeback(0,1) the account of client 0 is locked, yet the next record
referencing that account — a deposit with a missing amount — fails with
`TrxInvalidAmount`, not `AccountLocked`. -/
theorem C3_counterexample :
    ((processAll Ledger.new [⟨.deposit, 0, 1, some 1500⟩,
        ⟨.dispute, 0, 1, none⟩, ⟨.chargeback, 0, 1, none⟩]).accounts 0 =
      some { client := 0, available := 0, held := 0, total := 0,
             locked := true }) ∧
    ((processAll Ledger.new [⟨.deposit, 0, 1, some 1500⟩,
        ⟨.dispute, 0, 1, none⟩, ⟨.chargeback, 0, 1, none⟩]).process_trx
      ⟨.deposit, 0, 2, none⟩).1 = Except.error EngineError.trxInvalidAmount ∧
    EngineError.trxInvalidAmount ≠ EngineError.accountLocked := by
  refine ⟨?_, ?_, by simp⟩ <;>
    norm_num [processAll, Ledger.process_trx, Ledger.new, Ledger.withAccount,
      Ledger.withTrx, Account.new, Account.deposit, Account.dispute,
      Account.chargeback, Account.is_account_locked, is_amount_negative,
      Transaction.new, Transaction.open_dispute,
      Transaction.chargeback_dispute]

/-- C3 (amended): once the Account referenced by an input record is locked,
`process_trx` fails with some error and leaves the Ledger exactly as it
was.  (The error is not necessarily `AccountLocked`: other checks in the
dispatch arm may fire first, as the counterexample shows.) -/
theorem C3_locked_account_rejects_all (l : Ledger) (i : Input) (a : Account)
    (ha : l.accounts i.client = some a) (hl : a.locked = true) :
    (∃ e, (l.process_trx i).1 = Except.error e) ∧ (l.process_trx i).2 = l := by
  refine ⟨Ledger.process_trx_locked ha hl, ?_⟩
  obtain ⟨e, he⟩ := Ledger.process_trx_locked ha hl
  rcases hp : l.process_trx i with ⟨rs, l2⟩
  rw [hp] at he
  replace he : rs = Except.error e := he
  subst he
  have h2 := Ledger.process_trx_err hp
  subst h2
  rw [ha]
  exact Ledger.withAccount_eq_self ha

/-- Witness for C3: a withdrawal against the locked account produced by
deposit(0,1,1500); dispute(0,1); chargeback(0,1). -/
theorem C3_witness :
    (∃ e, ((processAll Ledger.new [⟨.deposit, 0, 1, some 1500⟩,
        ⟨.dispute, 0, 1, none⟩, ⟨.chargeback, 0, 1, none⟩]).process_trx
      ⟨.withdrawal, 0, 5, some 10⟩).1 = Except.error e) ∧
    ((processAll Ledger.new [⟨.deposit, 0, 1, some 1500⟩,
        ⟨.dispute, 0, 1, none⟩, ⟨.chargeback, 0, 1, none⟩]).process_trx
      ⟨.withdrawal, 0, 5, some 10⟩).2 =
      processAll Ledger.new [⟨.deposit, 0, 1, some 1500⟩,
        ⟨.dispute, 0, 1, none⟩, ⟨.chargeback, 0, 1, none⟩] :=
  C3_locked_account_rejects_all _ ⟨.withdrawal, 0, 5, some 10⟩
    { client := 0, available := 0, held := 0, total := 0, locked := true }
    (by norm_num [processAll, Ledger.process_trx, Ledger.new,
      Ledger.withAccount, Ledger.withTrx, Account.new, Account.deposit,
      Account.dispute, Account.chargeback, Account.is_account_locked,
      is_amount_negative, Transaction.new, Transaction.open_dispute,
      Transaction.chargeback_dispute])
    rfl

/-- C4 counterexample: in the state actually produced by
deposit(0,1,1500); dispute(0,1); chargeback(0,1), transaction 1 is stored in
`Chargeback` state, yet a second chargeback referencing it does NOT
re-apply the effect: the first chargeback locked the account, so the second
fails with `AccountLocked` and `total`/`held` are not reduced again. -/
theorem C4_counterexample :
    ((processAll Ledger.new [⟨.deposit, 0, 1, some 1500⟩,
        ⟨.dispute, 0, 1, none⟩, ⟨.chargeback, 0, 1, none⟩]).trx 1 =
      some { transaction_type := .deposit, client := 0, amount := some 1500,
             state := .chargeback }) ∧
    ((processAll Ledger.new [⟨.deposit, 0, 1, some 1500⟩,
        ⟨.dispute, 0, 1, none⟩, ⟨.chargeback, 0, 1, none⟩]).process_trx
      ⟨.chargeback, 0, 1, none⟩).1 = Except.error EngineError.accountLocked ∧
    (((processAll Ledger.new [⟨.deposit, 0, 1, some 1500⟩,
        ⟨.dispute, 0, 1, none⟩, ⟨.chargeback, 0, 1, none⟩]).process_trx
      ⟨.chargeback, 0, 1, none⟩).2).accounts 0 =
      some { client := 0, available := 0, held := 0, total := 0,
             locked := true } := by
  refine ⟨?_, ?_, ?_⟩ <;>
    norm_num [processAll, Ledger.process_trx, Ledger.new, Ledger.withAccount,
      Ledger.withTrx, Account.new, Account.deposit, Account.dispute,
      Account.chargeback, Account.is_account_locked, is_amount_negative,
      Transaction.new, Transaction.open_dispute,
      Transaction.chargeback_dispute]

/-- C4 (amended): a Chargeback input referencing a record already in
`Chargeback` state (same clientId, stored amount present and non-negative)
is not blocked by any record-state check: provided the account is not
locked, it succeeds and re-applies the chargeback effect, reducing `total`
and `held` again by the stored amount. -/
theorem C4_chargeback_rechargeback (l : Ledger) (t : Nat) (r : Transaction)
    (a : Account) (amt : ℚ) (iamt : Option ℚ)
    (htrx : l.trx t = some r) (hstate : r.state = .chargeback)
    (hamt : r.amount = some amt) (hnn : 0 ≤ amt)
    (ha : l.accounts r.client = some a) (hlock : a.locked = false) :
    (l.process_trx ⟨.chargeback, r.client, t, iamt⟩).1 = Except.ok () ∧
    ((l.process_trx ⟨.chargeback, r.client, t, iamt⟩).2).accounts r.client =
      some { a with total := a.total - amt, held := a.held - amt,
                    locked := true } := by
  simp [Ledger.process_trx, htrx, hamt, ha, Account.chargeback,
    is_amount_negative, Account.is_account_locked, hlock, not_lt.mpr hnn,
    Ledger.withAccount, Ledger.withTrx]

/-- Witness for C4, on a directly constructed ledger state in which the
record is in `Chargeback` state while the account is still unlocked (such a
state is not reachable through `process_trx`, which is the content of the
counterexample). -/
theorem C4_witness :
    ((Ledger.mk
        (fun c => if c = 0 then
          some { client := 0, available := 1500, held := 0, total := 1500,
                 locked := false } else none)
        (fun t => if t = 1 then
          some { transaction_type := .deposit, client := 0,
                 amount := some 1500, state := .chargeback }
          else none)).process_trx ⟨.chargeback, 0, 1, none⟩).1 =
      Except.ok () ∧
    (((Ledger.mk
        (fun c => if c = 0 then
          some { client := 0, available := 1500, held := 0, total := 1500,
                 locked := false } else none)
        (fun t => if t = 1 then
          some { transaction_type := .deposit, client := 0,
                 amount := some 1500, state := .chargeback }
          else none)).process_trx ⟨.chargeback, 0, 1, none⟩).2).accounts 0 =
      some { client := 0, available := 1500, held := (0 : ℚ) - 1500,
             total := (1500 : ℚ) - 1500, locked := true } :=
  C4_chargeback_rechargeback _ 1
    { transaction_type := .deposit, client := 0, amount := some 1500,
      state := .chargeback }
    { client := 0, available := 1500, held := 0, total := 1500,
      locked := false }
    1500 none rfl rfl rfl (by norm_num) rfl rfl

/-- C5: once a stored TransactionRecord is in `Chargeback` state, no
`process_trx` call of any type ever moves it to a different state: after
any further input, the record at that transaction id still exists and its
state is still `Chargeback`. -/
theorem C5_chargeback_state_terminal (l : Ledger) (i : Input) (t : Nat)
    (r : Transaction) (htrx : l.trx t = some r)
    (hstate : r.state = .chargeback) :
    ∃ r2, ((l.process_trx i).2).trx t = some r2 ∧
      r2.state = .chargeback := by
  rcases hp : l.process_trx i with ⟨rs, l2⟩
  dsimp only
  cases rs with
  | error e =>
    have h2 := Ledger.process_trx_err hp
    subst h2
    exact ⟨r, htrx, hstate⟩
  | ok u =>
    cases i with
    | mk ty c tv amt =>
      unfold Ledger.process_trx at hp
      cases ty
      all_goals dsimp only at hp
      all_goals repeat' split at hp
      all_goals simp only [Prod.mk.injEq] at hp
      all_goals obtain ⟨h1, h2⟩ := hp
      all_goals subst h2
      all_goals (first
        | exact Except.noConfusion h1
        | (by_cases hT : t = tv
           · subst hT
             simp_all [Ledger.withTrx, Ledger.withAccount,
               Transaction.chargeback_dispute, Transaction.open_dispute,
               Transaction.resolve_dispute]
           · refine ⟨r, ?_, hstate⟩
             simp only [Ledger.withTrx, Ledger.withAccount]
             rw [if_neg hT]
             exact htrx))

/-- Witness for C5: the charged-back record of transaction 1 stays in
`Chargeback` state across a further deposit input. -/
theorem C5_witness :
    ((processAll Ledger.new [⟨.deposit, 0, 1, some 1500⟩,
        ⟨.dispute, 0, 1, none⟩, ⟨.chargeback, 0, 1, none⟩]).trx 1 =
      some { transaction_type := .deposit, client := 0, amount := some 1500,
             state := .chargeback }) ∧
    (∃ r2, (((processAll Ledger.new [⟨.deposit, 0, 1, some 1500⟩,
          ⟨.dispute, 0, 1, none⟩, ⟨.chargeback, 0, 1, none⟩]).process_trx
        ⟨.deposit, 0, 2, some 7⟩).2).trx 1 = some r2 ∧
      r2.state = .chargeback) :=
  ⟨by norm_num [processAll, Ledger.process_trx, Ledger.new, Ledger.withAccount,
      Ledger.withTrx, Account.new, Account.deposit, Account.dispute,
      Account.chargeback, Account.is_account_locked, is_amount_negative,
      Transaction.new, Transaction.open_dispute,
      Transaction.chargeback_dispute],
   C5_chargeback_state_terminal _ ⟨.deposit, 0, 2, some 7⟩ 1
    { transaction_type := .deposit, client := 0, amount := some 1500,
      state := .chargeback }
    (by norm_num [processAll, Ledger.process_trx, Ledger.new,
      Ledger.withAccount, Ledger.withTrx, Account.new, Account.deposit,
      Account.dispute, Account.chargeback, Account.is_account_locked,
      is_amount_negative, Transaction.new, Transaction.open_dispute,
      Transaction.chargeback_dispute])
    rfl⟩

/-- Function `Account::deposit` never produces `TrxAlreadyProcessed` (its
only failures are `NegativeAmount` and `AccountLocked`). -/
theorem Account.deposit_not_already {a : Account} {amt : ℚ} :
    (a.deposit amt).1 ≠ Except.error EngineError.trxAlreadyProcessed := by
  unfold Account.deposit is_amount_negative Account.is_account_locked
  repeat' split
  all_goals (try (rename_i x e heq; split at heq))
  all_goals (try (injection heq with heq2))
  all_goals (try subst heq2)
  all_goals simp_all

/-- Function `Account::withdrawal` never produces `TrxAlreadyProcessed`. -/
theorem Account.withdrawal_not_already {a : Account} {amt : ℚ} :
    (a.withdrawal amt).1 ≠ Except.error EngineError.trxAlreadyProcessed := by
  unfold Account.withdrawal is_amount_negative Account.is_account_locked
  repeat' split
  all_goals (try (rename_i x e heq; split at heq))
  all_goals (try (injection heq with heq2))
  all_goals (try subst heq2)
  all_goals simp_all

/-- A Deposit or Withdrawal whose transaction id is absent from the
transaction map is never rejected with `TrxAlreadyProcessed`. -/
theorem Ledger.process_fresh_not_already {l : Ledger} {j : Input}
    (hty : j.transaction_type = .deposit ∨ j.transaction_type = .withdrawal)
    (hnone : l.trx j.tx = none) :
    (l.process_trx j).1 ≠ Except.error EngineError.trxAlreadyProcessed := by
  rcases hp : l.process_trx j with ⟨rs, l2⟩
  dsimp only
  intro hc
  subst hc
  cases j with
  | mk ty c tv amt =>
    dsimp only at hty hnone
    unfold Ledger.process_trx at hp
    rcases hty with h | h <;> subst h
    all_goals dsimp only at hp
    all_goals repeat' split at hp
    all_goals simp only [Prod.mk.injEq] at hp
    all_goals obtain ⟨h1, h2⟩ := hp
    all_goals (first
      | exact Except.noConfusion h1
      | (rename_i e2 a2 heq
         injection h1 with h1e
         subst h1e
         have hfst := congrArg Prod.fst heq
         first
           | exact Account.deposit_not_already hfst
           | exact Account.withdrawal_not_already hfst)
      | simp_all)

/-- C9: when a Deposit or Withdrawal is rejected (missing amount, negative
amount, locked account or insufficient funds), no TransactionRecord is
stored under its transaction id, so a later Deposit or Withdrawal reusing
that id is never rejected with `TrxAlreadyProcessed`; concretely, after
`deposit(0,1,no amount)` fails, `deposit(0,1,1500)` is accepted. -/
theorem C9_rejected_id_reusable (l : Ledger) (i : Input) (e : EngineError)
    (hty : i.transaction_type = .deposit ∨ i.transaction_type = .withdrawal)
    (hnew : l.trx i.tx = none)
    (herr : (l.process_trx i).1 = Except.error e) :
    ((l.process_trx i).2).trx i.tx = none ∧
    (∀ j : Input, j.tx = i.tx →
      j.transaction_type = .deposit ∨ j.transaction_type = .withdrawal →
      (((l.process_trx i).2).process_trx j).1 ≠
        Except.error EngineError.trxAlreadyProcessed) ∧
    ((Ledger.new.process_trx ⟨.deposit, 0, 1, none⟩).1 =
        Except.error EngineError.trxInvalidAmount ∧
      (((Ledger.new.process_trx ⟨.deposit, 0, 1, none⟩).2).process_trx
        ⟨.deposit, 0, 1, some 1500⟩).1 = Except.ok ()) := by
  have hpair : l.process_trx i = (Except.error e, (l.process_trx i).2) := by
    conv_lhs => rw [← Prod.mk.eta (p := l.process_trx i)]
    rw [herr]
  have hstate := Ledger.process_trx_err hpair
  refine ⟨?_, ?_, ?_, ?_⟩
  · rw [hstate]
    exact hnew
  · intro j hjt hjty
    apply Ledger.process_fresh_not_already hjty
    rw [hstate, hjt]
    exact hnew
  · norm_num [Ledger.process_trx, Ledger.new, Ledger.withAccount]
  · norm_num [Ledger.process_trx, Ledger.new, Ledger.withAccount,
      Ledger.withTrx, Account.new, Account.deposit,
      Account.is_account_locked, is_amount_negative, Transaction.new]

/-- Witness for C9: the failing `deposit(0,1,no amount)` on the fresh
ledger leaves transaction id 1 unused. -/
theorem C9_witness :
    (Ledger.new.trx 1 = none) ∧
    ((Ledger.new.process_trx ⟨.deposit, 0, 1, none⟩).1 =
      Except.error EngineError.trxInvalidAmount) ∧
    ((Ledger.new.process_trx ⟨.deposit, 0, 1, none⟩).2).trx 1 = none :=
  ⟨rfl,
   by norm_num [Ledger.process_trx, Ledger.new, Ledger.withAccount],
   (C9_rejected_id_reusable Ledger.new ⟨.deposit, 0, 1, none⟩
      EngineError.trxInvalidAmount (Or.inl rfl) rfl
      (by norm_num [Ledger.process_trx, Ledger.new, Ledger.withAccount])).1⟩

end TrxService
